import Mathlib

/-!
Shallow embedding of `src/components/PartnerForm.tsx` (partner registration
form): string formatters, validators, form state, input handler, postal-code
and tax-id lookup merges, and the submit handler.  JavaScript strings are
modelled as `List Char`; each JS `String.replace` with a non-global regex is
embedded as a first-match (leftmost) rewrite specialised to that regex;
`substring(0, k)` is `List.take k`; `Set<string>` is `Finset FieldKey`.
-/

/-- JS strings, modelled as lists of characters. -/
abbrev Str := List Char

/-- The `replace(/\D/g, '')` step shared by all masks and digit-count
validators: drop every non-digit character. -/
def stripNonDigits (l : Str) : Str := l.filter Char.isDigit

/-- First rewrite of `formatCNPJ`: anchored `^(\d{2})(\d)` → `$1.$2`
(insert a dot after the first two digits when at least three leading digits
are present). -/
def cnpjR1 (l : Str) : Str :=
  match l with
  | a :: b :: c :: rest =>
    if a.isDigit && b.isDigit && c.isDigit then a :: b :: '.' :: c :: rest else l
  | _ => l

/-- Second rewrite of `formatCNPJ`: anchored `^(\d{2})\.(\d{3})(\d)` →
`$1.$2.$3`. -/
def cnpjR2 (l : Str) : Str :=
  match l with
  | a :: b :: p :: c :: d :: e :: f :: rest =>
    if a.isDigit && b.isDigit && p == '.' && c.isDigit && d.isDigit && e.isDigit
        && f.isDigit then
      a :: b :: '.' :: c :: d :: e :: '.' :: f :: rest
    else l
  | _ => l

/-- Third rewrite of `formatCNPJ`: unanchored `\.(\d{3})(\d)` → `.$1/$2`,
applied at the leftmost match only (the regex is not global). -/
def cnpjR3 : Str → Str
  | [] => []
  | a :: rest =>
    match rest with
    | c :: d :: e :: f :: rest2 =>
      if a == '.' && c.isDigit && d.isDigit && e.isDigit && f.isDigit then
        a :: c :: d :: e :: '/' :: f :: rest2
      else a :: cnpjR3 rest
    | _ => a :: rest

/-- Unanchored `(\d{4})(\d)` → `$1-$2` at the leftmost match: insert a dash
after the first four digits of the first run of five consecutive digits.
Used by `formatCNPJ` (last rewrite) and `formatTelefone`. -/
def insDash4 : Str → Str
  | [] => []
  | a :: rest =>
    match rest with
    | b :: c :: d :: e :: rest2 =>
      if a.isDigit && b.isDigit && c.isDigit && d.isDigit && e.isDigit then
        a :: b :: c :: d :: '-' :: e :: rest2
      else a :: insDash4 rest
    | _ => a :: rest

/-- Unanchored `(\d{3})(\d)` (and, with `sep := '-'`, `(\d{3})(\d{1,2})`) →
insert `sep` after the first three digits of the leftmost run of four
consecutive digits.  For `(\d{3})(\d{1,2})` the match position and the
produced string coincide with those of `(\d{3})(\d)`: the greedy `\d{1,2}`
group is pasted back unchanged right after the separator. -/
def insSep3 (sep : Char) : Str → Str
  | [] => []
  | a :: rest =>
    match rest with
    | b :: c :: d :: rest2 =>
      if a.isDigit && b.isDigit && c.isDigit && d.isDigit then
        a :: b :: c :: sep :: d :: rest2
      else a :: insSep3 sep rest
    | _ => a :: rest

/-- The single rewrite of `formatCEP`: anchored `^(\d{5})(\d)` → `$1-$2`. -/
def cepR1 (l : Str) : Str :=
  match l with
  | a :: b :: c :: d :: e :: f :: rest =>
    if a.isDigit && b.isDigit && c.isDigit && d.isDigit && e.isDigit
        && f.isDigit then
      a :: b :: c :: d :: e :: '-' :: f :: rest
    else l
  | _ => l

/-- First rewrite of `formatTelefone`: anchored `^(\d{2})(\d)` → `($1) $2`. -/
def telR1 (l : Str) : Str :=
  match l with
  | a :: b :: c :: rest =>
    if a.isDigit && b.isDigit && c.isDigit then
      '(' :: a :: b :: ')' :: ' ' :: c :: rest
    else l
  | _ => l

/-- `formatCNPJ` from PartnerForm.tsx: strip non-digits, the four regex
rewrites, then `substring(0, 18)`. -/
def formatCNPJ (value : Str) : Str :=
  (cnpjR1 (stripNonDigits value) |> cnpjR2 |> cnpjR3 |> insDash4).take 18

/-- `formatCPF` from PartnerForm.tsx: strip non-digits, `(\d{3})(\d)` →
`$1.$2` twice, `(\d{3})(\d{1,2})` → `$1-$2`, then `substring(0, 14)`. -/
def formatCPF (value : Str) : Str :=
  (insSep3 '.' (stripNonDigits value) |> insSep3 '.' |> insSep3 '-').take 14

/-- `formatCEP` from PartnerForm.tsx: strip non-digits, `^(\d{5})(\d)` →
`$1-$2`, then `substring(0, 9)`. -/
def formatCEP (value : Str) : Str :=
  (cepR1 (stripNonDigits value)).take 9

/-- `formatTelefone` from PartnerForm.tsx: strip non-digits, `^(\d{2})(\d)` →
`($1) $2`, `(\d{4})(\d)` → `$1-$2`, then `substring(0, 14)`. -/
def formatTelefone (value : Str) : Str :=
  (telR1 (stripNonDigits value) |> insDash4).take 14

/-- Characters admitted by the `[^\s@]` classes of the email regex. -/
def emailChar (c : Char) : Bool := !(c == '@' || c.isWhitespace)

/-- `validateEmail` from PartnerForm.tsx: the test of
`/^[^\s@]+@[^\s@]+\.[^\s@]+$/`.  The string must consist of a non-empty
`@`-free, whitespace-free local part, a single `@` (the classes exclude any
further one), and a tail that is `@`-free and whitespace-free and contains a
dot that is neither its first nor its last character. -/
def validateEmail (email : Str) : Bool :=
  let a := email.takeWhile (fun c => !(c == '@'))
  match email.dropWhile (fun c => !(c == '@')) with
  | [] => false
  | _ :: rest =>
    !a.isEmpty && a.all emailChar && !rest.isEmpty && rest.all emailChar
      && ((rest.dropLast.drop 1).contains '.')

/-- `validateCNPJ`: exactly 14 digits after stripping non-digits. -/
def validateCNPJ (cnpj : Str) : Bool := (stripNonDigits cnpj).length == 14

/-- `validateCPF`: exactly 11 digits after stripping non-digits. -/
def validateCPF (cpf : Str) : Bool := (stripNonDigits cpf).length == 11

/-- `validateCEP`: exactly 8 digits after stripping non-digits. -/
def validateCEP (cep : Str) : Bool := (stripNonDigits cep).length == 8

/-- JS `String.prototype.trim`: drop whitespace from both ends. -/
def trim (l : Str) : Str :=
  ((l.dropWhile Char.isWhitespace).reverse.dropWhile Char.isWhitespace).reverse

/-- The `personalidade` field: `'fisica' | 'juridica'`. -/
inductive Personalidade
  | fisica
  | juridica
deriving DecidableEq, Fintype

/-- The keys of `PartnerFormData` (`keyof PartnerFormData`). -/
inductive FieldKey
  | razaoSocial
  | documento
  | cep
  | uf
  | municipio
  | logradouro
  | numero
  | bairro
  | email
  | telefone
  | complemento
  | observacao
deriving DecidableEq, Fintype

/-- The `PartnerFormData` interface. -/
structure PartnerFormData where
  personalidade : Personalidade
  razaoSocial : Str
  documento : Str
  cep : Str
  uf : Str
  municipio : Str
  logradouro : Str
  numero : Str
  bairro : Str
  email : Str
  telefone : Str
  complemento : Str
  observacao : Str
deriving DecidableEq

/-- The initial `useState` value of `formData`: personality `juridica`, all
text fields empty. -/
def initialFormData : PartnerFormData :=
  { personalidade := .juridica, razaoSocial := [], documento := [], cep := [],
    uf := [], municipio := [], logradouro := [], numero := [], bairro := [],
    email := [], telefone := [], complemento := [], observacao := [] }

/-- Read a text field of the draft by key (`formData[field]`). -/
def getField (f : FieldKey) (fd : PartnerFormData) : Str :=
  match f with
  | .razaoSocial => fd.razaoSocial
  | .documento => fd.documento
  | .cep => fd.cep
  | .uf => fd.uf
  | .municipio => fd.municipio
  | .logradouro => fd.logradouro
  | .numero => fd.numero
  | .bairro => fd.bairro
  | .email => fd.email
  | .telefone => fd.telefone
  | .complemento => fd.complemento
  | .observacao => fd.observacao

/-- Write a text field of the draft by key (`{ ...prev, [field]: value }`). -/
def setField (f : FieldKey) (v : Str) (fd : PartnerFormData) : PartnerFormData :=
  match f with
  | .razaoSocial => { fd with razaoSocial := v }
  | .documento => { fd with documento := v }
  | .cep => { fd with cep := v }
  | .uf => { fd with uf := v }
  | .municipio => { fd with municipio := v }
  | .logradouro => { fd with logradouro := v }
  | .numero => { fd with numero := v }
  | .bairro => { fd with bairro := v }
  | .email => { fd with email := v }
  | .telefone => { fd with telefone := v }
  | .complemento => { fd with complemento := v }
  | .observacao => { fd with observacao := v }

/-- The fixed required-field list of the progress effect (line 58). -/
def requiredFields : List FieldKey :=
  [.razaoSocial, .documento, .cep, .uf, .municipio, .logradouro, .numero,
   .bairro, .email, .telefone]

/-- The `FormErrors` object: one optional message per possible key; `none`
models an absent key.  `validateForm` only ever sets the ten required keys;
`handleInputChange` may write the empty string to any key. -/
structure FormErrors where
  razaoSocial : Option String := none
  documento : Option String := none
  cep : Option String := none
  uf : Option String := none
  municipio : Option String := none
  logradouro : Option String := none
  numero : Option String := none
  bairro : Option String := none
  email : Option String := none
  telefone : Option String := none
  complemento : Option String := none
  observacao : Option String := none
deriving DecidableEq

/-- Read an error entry by field key (`errors[field]`). -/
def getErr (f : FieldKey) (e : FormErrors) : Option String :=
  match f with
  | .razaoSocial => e.razaoSocial
  | .documento => e.documento
  | .cep => e.cep
  | .uf => e.uf
  | .municipio => e.municipio
  | .logradouro => e.logradouro
  | .numero => e.numero
  | .bairro => e.bairro
  | .email => e.email
  | .telefone => e.telefone
  | .complemento => e.complemento
  | .observacao => e.observacao

/-- Write an error entry by field key (`{ ...prev, [field]: msg }`). -/
def setErr (f : FieldKey) (v : Option String) (e : FormErrors) : FormErrors :=
  match f with
  | .razaoSocial => { e with razaoSocial := v }
  | .documento => { e with documento := v }
  | .cep => { e with cep := v }
  | .uf => { e with uf := v }
  | .municipio => { e with municipio := v }
  | .logradouro => { e with logradouro := v }
  | .numero => { e with numero := v }
  | .bairro => { e with bairro := v }
  | .email => { e with email := v }
  | .telefone => { e with telefone := v }
  | .complemento => { e with complemento := v }
  | .observacao => { e with observacao := v }

/-- `Object.keys(errors).length`: the number of present entries. -/
def countErrors (e : FormErrors) : Nat :=
  ([e.razaoSocial, e.documento, e.cep, e.uf, e.municipio, e.logradouro,
    e.numero, e.bairro, e.email, e.telefone, e.complemento,
    e.observacao]).countP Option.isSome

/-- Truthiness of `errors[field]` in JS: present and non-empty. -/
def errTruthy (o : Option String) : Bool :=
  match o with
  | some m => !m.isEmpty
  | none => false

/-- The toast `variant` flag: absent (`normal`) or `"destructive"`. -/
inductive ToastVariant
  | normal
  | destructive
deriving DecidableEq

/-- A toast notification as fired by `toast({ title, description, variant })`. -/
structure Toast where
  title : String
  description : String
  variant : ToastVariant
deriving DecidableEq

def cepSuccessToast : Toast :=
  { title := "✨ CEP consultado com sucesso!",
    description := "Endereço preenchido automaticamente.", variant := .normal }

def cepNotFoundToast : Toast :=
  { title := "🔍 CEP não encontrado",
    description := "Verifique o CEP informado.", variant := .destructive }

def cnpjSuccessToast : Toast :=
  { title := "🎉 CNPJ consultado com sucesso!",
    description := "Razão social preenchida automaticamente.",
    variant := .normal }

def cnpjNotFoundToast : Toast :=
  { title := "🔍 CNPJ não encontrado",
    description := "Verifique o CNPJ informado.", variant := .destructive }

/-- The component state touched by the claims: the draft, the error map, the
completed-field set and the submit in-flight flag.  (The two per-lookup
loading booleans and the derived progress percentage are not needed by any
claim and are omitted; lookups are modelled as pure response-merge
functions, transport exceptions being outside the embedding.) -/
structure FormState where
  formData : PartnerFormData
  errors : FormErrors
  completed : Finset FieldKey
  isLoading : Bool
deriving DecidableEq

/-- The state right after mount. -/
def initialState : FormState :=
  { formData := initialFormData, errors := {}, completed := ∅,
    isLoading := false }

/-- `handleInputChange(field, value)`: apply the mask for the field, store
the formatted value, add the field to `completedFields` when its trimmed
value is truthy (non-empty) and remove it otherwise, and clear (write `''`
over) a truthy error entry for the field.  The auto-lookup triggers fire
asynchronously and are modelled separately by `consultarCEP` /
`consultarCNPJ` applied when a response arrives. -/
def handleInputChange (field : FieldKey) (value : Str) (s : FormState) :
    FormState :=
  let formattedValue :=
    match field with
    | .documento =>
      if s.formData.personalidade == .juridica then formatCNPJ value
      else formatCPF value
    | .cep => formatCEP value
    | .telefone => formatTelefone value
    | _ => value
  let fd := setField field formattedValue s.formData
  let comp :=
    if (trim formattedValue).isEmpty then s.completed.erase field
    else insert field s.completed
  let errs :=
    if errTruthy (getErr field s.errors) then setErr field (some "") s.errors
    else s.errors
  { s with formData := fd, completed := comp, errors := errs }

/-- `validateForm()`: build a fresh error object from the ten required-field
checks and the email/documento/cep format checks, and return it together
with `Object.keys(newErrors).length === 0`. -/
def validateForm (fd : PartnerFormData) : FormErrors × Bool :=
  let e : FormErrors := {}
  let e := if (trim fd.razaoSocial).isEmpty then
    { e with razaoSocial := some "Razão Social é obrigatória" } else e
  let e := if (trim fd.documento).isEmpty then
    { e with documento := some (if fd.personalidade == .juridica then
        "CNPJ é obrigatório" else "CPF é obrigatório") } else e
  let e := if (trim fd.cep).isEmpty then
    { e with cep := some "CEP é obrigatório" } else e
  let e := if (trim fd.uf).isEmpty then
    { e with uf := some "UF é obrigatória" } else e
  let e := if (trim fd.municipio).isEmpty then
    { e with municipio := some "Município é obrigatório" } else e
  let e := if (trim fd.logradouro).isEmpty then
    { e with logradouro := some "Logradouro é obrigatório" } else e
  let e := if (trim fd.numero).isEmpty then
    { e with numero := some "Número é obrigatório" } else e
  let e := if (trim fd.bairro).isEmpty then
    { e with bairro := some "Bairro é obrigatório" } else e
  let e := if (trim fd.email).isEmpty then
    { e with email := some "Email é obrigatório" } else e
  let e := if (trim fd.telefone).isEmpty then
    { e with telefone := some "Telefone é obrigatório" } else e
  let e := if !fd.email.isEmpty && !(validateEmail fd.email) then
    { e with email := some "Email inválido" } else e
  let e := if !fd.documento.isEmpty && fd.personalidade == .juridica
      && !(validateCNPJ fd.documento) then
    { e with documento := some "CNPJ inválido" } else e
  let e := if !fd.documento.isEmpty && fd.personalidade == .fisica
      && !(validateCPF fd.documento) then
    { e with documento := some "CPF inválido" } else e
  let e := if !fd.cep.isEmpty && !(validateCEP fd.cep) then
    { e with cep := some "CEP inválido" } else e
  (e, countErrors e == 0)

/-- `handleSubmit`: run full validation; when invalid, store the new error
map and stay put (the rejection toast path); when valid, run the simulated
persistence delay (modelled as always succeeding), reset the draft to its
defaults, empty `completedFields`, and end with `isLoading` back to `false`.
The boolean reports whether the submission went through. -/
def handleSubmit (s : FormState) : FormState × Bool :=
  let v := validateForm s.formData
  if !v.2 then
    ({ s with errors := v.1 }, false)
  else
    ({ s with
        formData := initialFormData, errors := v.1, completed := ∅,
        isLoading := false }, true)

/-- The JSON body of a ViaCEP response, restricted to the consumed fields.
`erro` holds the truthiness of `data.erro`; an absent or non-string address
field is `none` (`data.logradouro || ''` then yields `''`, which is also
what a present empty string yields, so `Option.getD _ []` is exact). -/
structure CepResponse where
  erro : Bool
  logradouro : Option Str := none
  bairro : Option Str := none
  localidade : Option Str := none
  uf : Option Str := none
deriving DecidableEq

/-- `consultarCEP(cep)` receiving parsed body `data`: no-op unless the cep
has 8 digits; on `!data.erro` merge the four address fields into the draft
(each `data.x || ''`) and fire the success toast; otherwise leave the state
alone and fire the destructive not-found toast. -/
def consultarCEP (cep : Str) (s : FormState) (data : CepResponse) :
    FormState × Option Toast :=
  if !(validateCEP cep) then (s, none)
  else if !data.erro then
    ({ s with formData :=
        { s.formData with
          logradouro := data.logradouro.getD [],
          bairro := data.bairro.getD [],
          municipio := data.localidade.getD [],
          uf := data.uf.getD [] } },
     some cepSuccessToast)
  else (s, some cepNotFoundToast)

/-- The JSON body of a ReceitaWS response, restricted to the consumed
fields: `status` (compared with `'OK'`) and the optional `nome`. -/
structure CnpjResponse where
  status : String
  nome : Option Str := none
deriving DecidableEq

/-- `consultarCNPJ(cnpj)` receiving parsed body `data`: no-op unless the
cnpj has 14 digits; on `status === 'OK'` overwrite `razaoSocial` with
`data.nome || ''` and fire the success toast; otherwise leave the state
alone and fire the destructive not-found toast. -/
def consultarCNPJ (cnpj : Str) (s : FormState) (data : CnpjResponse) :
    FormState × Option Toast :=
  if !(validateCNPJ cnpj) then (s, none)
  else if data.status == "OK" then
    ({ s with formData := { s.formData with razaoSocial := data.nome.getD [] } },
     some cnpjSuccessToast)
  else (s, some cnpjNotFoundToast)

/-- The `RadioGroup.onValueChange` handler: store the new personality and
clear `documento` and `razaoSocial`; nothing else changes. -/
def onPersonalidadeChange (value : Personalidade) (s : FormState) :
    FormState :=
  { s with formData :=
      { s.formData with
        personalidade := value, documento := [],
        razaoSocial := [] } }

/-- The spec's reading of **CompletedFields** — "set of field names with
non-blank trimmed value among the required set" — written from the spec's
words for comparison with the `completed` component actually maintained by
the code. -/
def specRequiredCompleted (fd : PartnerFormData) : Finset FieldKey :=
  (requiredFields.filter (fun f => !(trim (getField f fd)).isEmpty)).toFinset

/-- A concrete fully-valid draft (14-digit company tax id, 8-digit postal
code, well-formed email, all required fields non-blank), used by witnesses. -/
def sampleValidDraft : PartnerFormData :=
  { personalidade := .juridica, razaoSocial := "Acme Ltda".toList,
    documento := "12345678901234".toList, cep := "12345678".toList,
    uf := "SP".toList, municipio := "Sao Paulo".toList,
    logradouro := "Rua A".toList, numero := "10".toList,
    bairro := "Centro".toList, email := "a@b.c".toList,
    telefone := "1234567890".toList, complemento := [], observacao := [] }

/-- The valid draft loaded into a form state, used by witnesses. -/
def sampleValidState : FormState :=
  { formData := sampleValidDraft, errors := {},
    completed := {FieldKey.razaoSocial}, isLoading := false }

/-- A state whose draft already holds user-typed address fields, used by
witnesses. -/
def sampleFilledState : FormState :=
  { formData := { initialFormData with
      logradouro := "Rua X".toList, bairro := "B".toList },
    errors := {}, completed := ∅, isLoading := false }

/-- A successful postal-lookup body that returns only two of the four
address fields, used by witnesses. -/
def sampleCepResponse : CepResponse :=
  { erro := false, logradouro := some "Rua Nova".toList,
    localidade := some "Cidade".toList }

theorem dot_not_digit : ('.' : Char).isDigit = false := by decide

theorem dash_not_digit : ('-' : Char).isDigit = false := by decide

theorem slash_not_digit : ('/' : Char).isDigit = false := by decide

theorem lparen_not_digit : ('(' : Char).isDigit = false := by decide

theorem rparen_not_digit : (')' : Char).isDigit = false := by decide

theorem space_not_digit : (' ' : Char).isDigit = false := by decide

theorem digit_beq_dot {c : Char} (h : c.isDigit = true) : (c == '.') = false := by
  cases hb : c == '.'
  · rfl
  · rw [beq_iff_eq] at hb
    subst hb
    exact absurd h (by decide)

theorem strip_cons (a : Char) (l : Str) :
    stripNonDigits (a :: l) =
      if a.isDigit then a :: stripNonDigits l else stripNonDigits l :=
  List.filter_cons

theorem cnpjR3_cons5 (a c d e f : Char) (r : Str) :
    cnpjR3 (a :: c :: d :: e :: f :: r) =
      if a == '.' && c.isDigit && d.isDigit && e.isDigit && f.isDigit then
        a :: c :: d :: e :: '/' :: f :: r
      else a :: cnpjR3 (c :: d :: e :: f :: r) := rfl

theorem insDash4_cons5 (a b c d e : Char) (r : Str) :
    insDash4 (a :: b :: c :: d :: e :: r) =
      if a.isDigit && b.isDigit && c.isDigit && d.isDigit && e.isDigit then
        a :: b :: c :: d :: '-' :: e :: r
      else a :: insDash4 (b :: c :: d :: e :: r) := rfl

theorem insSep3_cons4 (sep a b c d : Char) (r : Str) :
    insSep3 sep (a :: b :: c :: d :: r) =
      if a.isDigit && b.isDigit && c.isDigit && d.isDigit then
        a :: b :: c :: sep :: d :: r
      else a :: insSep3 sep (b :: c :: d :: r) := rfl

theorem strip_cnpjR1 (l : Str) :
    stripNonDigits (cnpjR1 l) = stripNonDigits l := by
  rcases l with _ | ⟨a, _ | ⟨b, _ | ⟨c, rest⟩⟩⟩ <;> try rfl
  simp only [cnpjR1]
  split
  · next h =>
    simp only [Bool.and_eq_true] at h
    obtain ⟨⟨ha, hb⟩, hc⟩ := h
    simp [stripNonDigits, List.filter_cons, ha, hb, hc, dot_not_digit]
  · rfl

theorem strip_cnpjR2 (l : Str) :
    stripNonDigits (cnpjR2 l) = stripNonDigits l := by
  rcases l with _ | ⟨a, _ | ⟨b, _ | ⟨p, _ | ⟨c, _ | ⟨d, _ | ⟨e, _ | ⟨f, rest⟩⟩⟩⟩⟩⟩⟩ <;>
    try rfl
  simp only [cnpjR2]
  split
  · next h =>
    simp only [Bool.and_eq_true, beq_iff_eq] at h
    obtain ⟨⟨⟨⟨⟨⟨ha, hb⟩, hp⟩, hc⟩, hd⟩, he⟩, hf⟩ := h
    subst hp
    simp [stripNonDigits, List.filter_cons, ha, hb, hc, hd, he, hf,
      dot_not_digit]
  · rfl

theorem strip_cnpjR3 (l : Str) :
    stripNonDigits (cnpjR3 l) = stripNonDigits l := by
  induction l with
  | nil => rfl
  | cons a rest ih =>
    rcases rest with _ | ⟨c, _ | ⟨d, _ | ⟨e, _ | ⟨f, rest2⟩⟩⟩⟩ <;> try rfl
    rw [cnpjR3_cons5]
    split
    · next h =>
      simp only [Bool.and_eq_true, beq_iff_eq] at h
      obtain ⟨⟨⟨⟨hp, hc⟩, hd⟩, he⟩, hf⟩ := h
      subst hp
      simp [stripNonDigits, List.filter_cons, hc, hd, he, hf, dot_not_digit,
        slash_not_digit]
    · rw [strip_cons, ih]
      conv_rhs => rw [strip_cons]

theorem strip_insDash4 (l : Str) :
    stripNonDigits (insDash4 l) = stripNonDigits l := by
  induction l with
  | nil => rfl
  | cons a rest ih =>
    rcases rest with _ | ⟨b, _ | ⟨c, _ | ⟨d, _ | ⟨e, rest2⟩⟩⟩⟩ <;> try rfl
    rw [insDash4_cons5]
    split
    · next h =>
      simp only [Bool.and_eq_true] at h
      obtain ⟨⟨⟨⟨ha, hb⟩, hc⟩, hd⟩, he⟩ := h
      simp [stripNonDigits, List.filter_cons, ha, hb, hc, hd, he,
        dash_not_digit]
    · rw [strip_cons, ih]
      conv_rhs => rw [strip_cons]

theorem strip_insSep3 (sep : Char) (hs : sep.isDigit = false) (l : Str) :
    stripNonDigits (insSep3 sep l) = stripNonDigits l := by
  induction l with
  | nil => rfl
  | cons a rest ih =>
    rcases rest with _ | ⟨b, _ | ⟨c, _ | ⟨d, rest2⟩⟩⟩ <;> try rfl
    rw [insSep3_cons4]
    split
    · next h =>
      simp only [Bool.and_eq_true] at h
      obtain ⟨⟨⟨ha, hb⟩, hc⟩, hd⟩ := h
      simp [stripNonDigits, List.filter_cons, ha, hb, hc, hd, hs]
    · rw [strip_cons, ih]
      conv_rhs => rw [strip_cons]

theorem strip_cepR1 (l : Str) :
    stripNonDigits (cepR1 l) = stripNonDigits l := by
  rcases l with _ | ⟨a, _ | ⟨b, _ | ⟨c, _ | ⟨d, _ | ⟨e, _ | ⟨f, rest⟩⟩⟩⟩⟩⟩ <;>
    try rfl
  simp only [cepR1]
  split
  · next h =>
    simp only [Bool.and_eq_true] at h
    obtain ⟨⟨⟨⟨⟨ha, hb⟩, hc⟩, hd⟩, he⟩, hf⟩ := h
    simp [stripNonDigits, List.filter_cons, ha, hb, hc, hd, he, hf,
      dash_not_digit]
  · rfl

theorem strip_telR1 (l : Str) :
    stripNonDigits (telR1 l) = stripNonDigits l := by
  rcases l with _ | ⟨a, _ | ⟨b, _ | ⟨c, rest⟩⟩⟩ <;> try rfl
  simp only [telR1]
  split
  · next h =>
    simp only [Bool.and_eq_true] at h
    obtain ⟨⟨ha, hb⟩, hc⟩ := h
    simp [stripNonDigits, List.filter_cons, ha, hb, hc, lparen_not_digit,
      rparen_not_digit, space_not_digit]
  · rfl

theorem len_cnpjR1 (l : Str) : (cnpjR1 l).length ≤ l.length + 1 := by
  rcases l with _ | ⟨a, _ | ⟨b, _ | ⟨c, rest⟩⟩⟩ <;> try (simp [cnpjR1]; done)
  simp only [cnpjR1]
  split <;> simp

theorem len_cnpjR2 (l : Str) : (cnpjR2 l).length ≤ l.length + 1 := by
  rcases l with _ | ⟨a, _ | ⟨b, _ | ⟨p, _ | ⟨c, _ | ⟨d, _ | ⟨e, _ | ⟨f, rest⟩⟩⟩⟩⟩⟩⟩ <;>
    try (simp [cnpjR2]; done)
  simp only [cnpjR2]
  split <;> simp

theorem len_cnpjR3 (l : Str) : (cnpjR3 l).length ≤ l.length + 1 := by
  induction l with
  | nil => simp [cnpjR3]
  | cons a rest ih =>
    rcases rest with _ | ⟨c, _ | ⟨d, _ | ⟨e, _ | ⟨f, rest2⟩⟩⟩⟩ <;>
      try (simp [cnpjR3]; done)
    rw [cnpjR3_cons5]
    split
    · simp
    · simp only [List.length_cons] at ih ⊢
      omega

theorem len_insDash4 (l : Str) : (insDash4 l).length ≤ l.length + 1 := by
  induction l with
  | nil => simp [insDash4]
  | cons a rest ih =>
    rcases rest with _ | ⟨b, _ | ⟨c, _ | ⟨d, _ | ⟨e, rest2⟩⟩⟩⟩ <;>
      try (simp [insDash4]; done)
    rw [insDash4_cons5]
    split
    · simp
    · simp only [List.length_cons] at ih ⊢
      omega

theorem len_insSep3 (sep : Char) (l : Str) :
    (insSep3 sep l).length ≤ l.length + 1 := by
  induction l with
  | nil => simp [insSep3]
  | cons a rest ih =>
    rcases rest with _ | ⟨b, _ | ⟨c, _ | ⟨d, rest2⟩⟩⟩ <;>
      try (simp [insSep3]; done)
    rw [insSep3_cons4]
    split
    · simp
    · simp only [List.length_cons] at ih ⊢
      omega

theorem len_cepR1 (l : Str) : (cepR1 l).length ≤ l.length + 1 := by
  rcases l with _ | ⟨a, _ | ⟨b, _ | ⟨c, _ | ⟨d, _ | ⟨e, _ | ⟨f, rest⟩⟩⟩⟩⟩⟩ <;>
    try (simp [cepR1]; done)
  simp only [cepR1]
  split <;> simp

theorem len_telR1 (l : Str) : (telR1 l).length ≤ l.length + 3 := by
  rcases l with _ | ⟨a, _ | ⟨b, _ | ⟨c, rest⟩⟩⟩ <;> try (simp [telR1]; done)
  simp only [telR1]
  split <;> simp

theorem all_digits_strip (v : Str) : ∀ c ∈ stripNonDigits v, c.isDigit = true :=
  fun _ hc => (List.mem_filter.mp hc).2

theorem strip_all_digits {l : Str} (h : ∀ c ∈ l, c.isDigit = true) :
    stripNonDigits l = l := List.filter_eq_self.mpr (by simpa using h)

theorem cons_of_lt_length {α : Type} {l : List α} {n : Nat}
    (h : n + 1 ≤ l.length) : ∃ a t, l = a :: t ∧ n ≤ t.length := by
  cases l with
  | nil => simp at h
  | cons a t => exact ⟨a, t, rfl, by simpa using h⟩

theorem getField_setField_same (f : FieldKey) (v : Str) (fd : PartnerFormData) :
    getField f (setField f v fd) = v := by
  cases f <;> rfl

theorem handleInputChange_completed (f : FieldKey) (v : Str) (s : FormState) :
    (handleInputChange f v s).completed =
      (if (trim (getField f (handleInputChange f v s).formData)).isEmpty
       then s.completed.erase f else insert f s.completed) := by
  cases f <;> rfl

theorem formatCEP_idem (v : Str) : formatCEP (formatCEP v) = formatCEP v := by
  have hall := all_digits_strip v
  unfold formatCEP
  generalize hg : stripNonDigits v = d
  rw [hg] at hall
  by_cases hle : d.length ≤ 8
  · have h9 : (cepR1 d).length ≤ 9 := le_trans (len_cepR1 d) (by omega)
    rw [List.take_of_length_le h9, strip_cepR1, strip_all_digits hall,
      List.take_of_length_le h9]
  · push_neg at hle
    obtain ⟨d1, d, rfl, hle⟩ := cons_of_lt_length (show 8 + 1 ≤ d.length by omega)
    obtain ⟨d2, d, rfl, hle⟩ := cons_of_lt_length (show 7 + 1 ≤ d.length by omega)
    obtain ⟨d3, d, rfl, hle⟩ := cons_of_lt_length (show 6 + 1 ≤ d.length by omega)
    obtain ⟨d4, d, rfl, hle⟩ := cons_of_lt_length (show 5 + 1 ≤ d.length by omega)
    obtain ⟨d5, d, rfl, hle⟩ := cons_of_lt_length (show 4 + 1 ≤ d.length by omega)
    obtain ⟨d6, d, rfl, hle⟩ := cons_of_lt_length (show 3 + 1 ≤ d.length by omega)
    obtain ⟨d7, d, rfl, hle⟩ := cons_of_lt_length (show 2 + 1 ≤ d.length by omega)
    obtain ⟨d8, d, rfl, hle⟩ := cons_of_lt_length (show 1 + 1 ≤ d.length by omega)
    obtain ⟨d9, t, rfl, -⟩ := cons_of_lt_length (show 0 + 1 ≤ d.length by omega)
    simp only [List.mem_cons, forall_eq_or_imp] at hall
    obtain ⟨h1, h2, h3, h4, h5, h6, h7, h8, h9, ht⟩ := hall
    have hr : cepR1 (d1::d2::d3::d4::d5::d6::d7::d8::d9::t) =
        [d1,d2,d3,d4,d5,'-',d6,d7,d8] ++ d9 :: t := by
      simp [cepR1, h1, h2, h3, h4, h5, h6]
    have htake : ([d1,d2,d3,d4,d5,'-',d6,d7,d8] ++ d9 :: t).take 9 =
        [d1,d2,d3,d4,d5,'-',d6,d7,d8] := by
      have h : ([d1,d2,d3,d4,d5,'-',d6,d7,d8] : Str).length = 9 := rfl
      rw [← h, List.take_left]
    have hstrip : stripNonDigits [d1,d2,d3,d4,d5,'-',d6,d7,d8] =
        [d1,d2,d3,d4,d5,d6,d7,d8] := by
      simp [stripNonDigits, List.filter_cons, h1, h2, h3, h4, h5, h6, h7, h8,
        dash_not_digit]
    have hr2 : cepR1 [d1,d2,d3,d4,d5,d6,d7,d8] =
        [d1,d2,d3,d4,d5,'-',d6,d7,d8] := by
      simp [cepR1, h1, h2, h3, h4, h5, h6]
    have htake2 : ([d1,d2,d3,d4,d5,'-',d6,d7,d8] : Str).take 9 =
        [d1,d2,d3,d4,d5,'-',d6,d7,d8] :=
      List.take_of_length_le (by simp)
    rw [hr, htake, hstrip, hr2, htake2]

theorem cnpjRender14 (d1 d2 d3 d4 d5 d6 d7 d8 d9 d10 d11 d12 d13 d14 : Char)
    (t : Str) (h1 : d1.isDigit = true) (h2 : d2.isDigit = true)
    (h3 : d3.isDigit = true) (h4 : d4.isDigit = true)
    (h5 : d5.isDigit = true) (h6 : d6.isDigit = true)
    (h7 : d7.isDigit = true) (h8 : d8.isDigit = true)
    (h9 : d9.isDigit = true) (h10 : d10.isDigit = true)
    (h11 : d11.isDigit = true) (h12 : d12.isDigit = true)
    (h13 : d13.isDigit = true) (h14 : d14.isDigit = true) :
    insDash4 (cnpjR3 (cnpjR2 (cnpjR1
        (d1::d2::d3::d4::d5::d6::d7::d8::d9::d10::d11::d12::d13::d14::t)))) =
      [d1,d2,'.',d3,d4,d5,'.',d6,d7,d8,'/',d9,d10,d11,d12,'-',d13,d14] ++ t := by
  simp [cnpjR1, cnpjR2, cnpjR3, insDash4, h1, h2, h3, h4, h5, h6, h7, h8, h9,
    h10, h11, h12, h13, h14, digit_beq_dot h1, digit_beq_dot h2,
    digit_beq_dot h3, digit_beq_dot h4, digit_beq_dot h5, digit_beq_dot h6,
    digit_beq_dot h7, digit_beq_dot h8, dot_not_digit, slash_not_digit]

theorem stripP18 (d1 d2 d3 d4 d5 d6 d7 d8 d9 d10 d11 d12 d13 d14 : Char)
    (h1 : d1.isDigit = true) (h2 : d2.isDigit = true)
    (h3 : d3.isDigit = true) (h4 : d4.isDigit = true)
    (h5 : d5.isDigit = true) (h6 : d6.isDigit = true)
    (h7 : d7.isDigit = true) (h8 : d8.isDigit = true)
    (h9 : d9.isDigit = true) (h10 : d10.isDigit = true)
    (h11 : d11.isDigit = true) (h12 : d12.isDigit = true)
    (h13 : d13.isDigit = true) (h14 : d14.isDigit = true) :
    stripNonDigits
        [d1,d2,'.',d3,d4,d5,'.',d6,d7,d8,'/',d9,d10,d11,d12,'-',d13,d14] =
      [d1,d2,d3,d4,d5,d6,d7,d8,d9,d10,d11,d12,d13,d14] := by
  simp [stripNonDigits, List.filter_cons, h1, h2, h3, h4, h5, h6, h7, h8, h9,
    h10, h11, h12, h13, h14, dot_not_digit, slash_not_digit, dash_not_digit]

theorem formatCNPJ_idem (v : Str) :
    formatCNPJ (formatCNPJ v) = formatCNPJ v := by
  have hall := all_digits_strip v
  unfold formatCNPJ
  generalize hg : stripNonDigits v = d
  rw [hg] at hall
  by_cases hle : d.length ≤ 14
  · have h18 : (insDash4 (cnpjR3 (cnpjR2 (cnpjR1 d)))).length ≤ 18 := by
      have b1 := len_cnpjR1 d
      have b2 := len_cnpjR2 (cnpjR1 d)
      have b3 := len_cnpjR3 (cnpjR2 (cnpjR1 d))
      have b4 := len_insDash4 (cnpjR3 (cnpjR2 (cnpjR1 d)))
      omega
    rw [List.take_of_length_le h18, strip_insDash4, strip_cnpjR3, strip_cnpjR2,
      strip_cnpjR1, strip_all_digits hall, List.take_of_length_le h18]
  · push_neg at hle
    obtain ⟨d1, d, rfl, hle⟩ := cons_of_lt_length (show 14 + 1 ≤ d.length by omega)
    obtain ⟨d2, d, rfl, hle⟩ := cons_of_lt_length (show 13 + 1 ≤ d.length by omega)
    obtain ⟨d3, d, rfl, hle⟩ := cons_of_lt_length (show 12 + 1 ≤ d.length by omega)
    obtain ⟨d4, d, rfl, hle⟩ := cons_of_lt_length (show 11 + 1 ≤ d.length by omega)
    obtain ⟨d5, d, rfl, hle⟩ := cons_of_lt_length (show 10 + 1 ≤ d.length by omega)
    obtain ⟨d6, d, rfl, hle⟩ := cons_of_lt_length (show 9 + 1 ≤ d.length by omega)
    obtain ⟨d7, d, rfl, hle⟩ := cons_of_lt_length (show 8 + 1 ≤ d.length by omega)
    obtain ⟨d8, d, rfl, hle⟩ := cons_of_lt_length (show 7 + 1 ≤ d.length by omega)
    obtain ⟨d9, d, rfl, hle⟩ := cons_of_lt_length (show 6 + 1 ≤ d.length by omega)
    obtain ⟨d10, d, rfl, hle⟩ := cons_of_lt_length (show 5 + 1 ≤ d.length by omega)
    obtain ⟨d11, d, rfl, hle⟩ := cons_of_lt_length (show 4 + 1 ≤ d.length by omega)
    obtain ⟨d12, d, rfl, hle⟩ := cons_of_lt_length (show 3 + 1 ≤ d.length by omega)
    obtain ⟨d13, d, rfl, hle⟩ := cons_of_lt_length (show 2 + 1 ≤ d.length by omega)
    obtain ⟨d14, d, rfl, hle⟩ := cons_of_lt_length (show 1 + 1 ≤ d.length by omega)
    obtain ⟨d15, t, rfl, -⟩ := cons_of_lt_length (show 0 + 1 ≤ d.length by omega)
    simp only [List.mem_cons, forall_eq_or_imp] at hall
    obtain ⟨h1, h2, h3, h4, h5, h6, h7, h8, h9, h10, h11, h12, h13, h14, h15,
      ht⟩ := hall
    have hr := cnpjRender14 d1 d2 d3 d4 d5 d6 d7 d8 d9 d10 d11 d12 d13 d14
      (d15 :: t) h1 h2 h3 h4 h5 h6 h7 h8 h9 h10 h11 h12 h13 h14
    have htake :
        (([d1,d2,'.',d3,d4,d5,'.',d6,d7,d8,'/',d9,d10,d11,d12,'-',d13,d14] :
          Str) ++ d15 :: t).take 18 =
        [d1,d2,'.',d3,d4,d5,'.',d6,d7,d8,'/',d9,d10,d11,d12,'-',d13,d14] := by
      have h : ([d1,d2,'.',d3,d4,d5,'.',d6,d7,d8,'/',d9,d10,d11,d12,'-',
          d13,d14] : Str).length = 18 := rfl
      rw [← h, List.take_left]
    have hstrip := stripP18 d1 d2 d3 d4 d5 d6 d7 d8 d9 d10 d11 d12 d13 d14
      h1 h2 h3 h4 h5 h6 h7 h8 h9 h10 h11 h12 h13 h14
    have hr2 := cnpjRender14 d1 d2 d3 d4 d5 d6 d7 d8 d9 d10 d11 d12 d13 d14
      [] h1 h2 h3 h4 h5 h6 h7 h8 h9 h10 h11 h12 h13 h14
    rw [List.append_nil] at hr2
    have htake2 :
        (([d1,d2,'.',d3,d4,d5,'.',d6,d7,d8,'/',d9,d10,d11,d12,'-',d13,d14] :
          Str)).take 18 =
        [d1,d2,'.',d3,d4,d5,'.',d6,d7,d8,'/',d9,d10,d11,d12,'-',d13,d14] :=
      List.take_of_length_le (by simp)
    rw [hr, htake, hstrip, hr2, htake2]

theorem cpfRender11 (d1 d2 d3 d4 d5 d6 d7 d8 d9 d10 d11 : Char) (t : Str)
    (h1 : d1.isDigit = true) (h2 : d2.isDigit = true)
    (h3 : d3.isDigit = true) (h4 : d4.isDigit = true)
    (h5 : d5.isDigit = true) (h6 : d6.isDigit = true)
    (h7 : d7.isDigit = true) (h8 : d8.isDigit = true)
    (h9 : d9.isDigit = true) (h10 : d10.isDigit = true)
    (h11 : d11.isDigit = true) :
    insSep3 '-' (insSep3 '.' (insSep3 '.'
        (d1::d2::d3::d4::d5::d6::d7::d8::d9::d10::d11::t))) =
      [d1,d2,d3,'.',d4,d5,d6,'.',d7,d8,d9,'-',d10,d11] ++ t := by
  simp [insSep3, h1, h2, h3, h4, h5, h6, h7, h8, h9, h10, h11,
    dot_not_digit, dash_not_digit]

theorem stripP14cpf (d1 d2 d3 d4 d5 d6 d7 d8 d9 d10 d11 : Char)
    (h1 : d1.isDigit = true) (h2 : d2.isDigit = true)
    (h3 : d3.isDigit = true) (h4 : d4.isDigit = true)
    (h5 : d5.isDigit = true) (h6 : d6.isDigit = true)
    (h7 : d7.isDigit = true) (h8 : d8.isDigit = true)
    (h9 : d9.isDigit = true) (h10 : d10.isDigit = true)
    (h11 : d11.isDigit = true) :
    stripNonDigits [d1,d2,d3,'.',d4,d5,d6,'.',d7,d8,d9,'-',d10,d11] =
      [d1,d2,d3,d4,d5,d6,d7,d8,d9,d10,d11] := by
  simp [stripNonDigits, List.filter_cons, h1, h2, h3, h4, h5, h6, h7, h8, h9,
    h10, h11, dot_not_digit, dash_not_digit]

theorem formatCPF_idem (v : Str) : formatCPF (formatCPF v) = formatCPF v := by
  have hall := all_digits_strip v
  unfold formatCPF
  generalize hg : stripNonDigits v = d
  rw [hg] at hall
  by_cases hle : d.length ≤ 11
  · have h14 : (insSep3 '-' (insSep3 '.' (insSep3 '.' d))).length ≤ 14 := by
      have b1 := len_insSep3 '.' d
      have b2 := len_insSep3 '.' (insSep3 '.' d)
      have b3 := len_insSep3 '-' (insSep3 '.' (insSep3 '.' d))
      omega
    rw [List.take_of_length_le h14, strip_insSep3 '-' dash_not_digit,
      strip_insSep3 '.' dot_not_digit, strip_insSep3 '.' dot_not_digit,
      strip_all_digits hall, List.take_of_length_le h14]
  · push_neg at hle
    obtain ⟨d1, d, rfl, hle⟩ := cons_of_lt_length (show 11 + 1 ≤ d.length by omega)
    obtain ⟨d2, d, rfl, hle⟩ := cons_of_lt_length (show 10 + 1 ≤ d.length by omega)
    obtain ⟨d3, d, rfl, hle⟩ := cons_of_lt_length (show 9 + 1 ≤ d.length by omega)
    obtain ⟨d4, d, rfl, hle⟩ := cons_of_lt_length (show 8 + 1 ≤ d.length by omega)
    obtain ⟨d5, d, rfl, hle⟩ := cons_of_lt_length (show 7 + 1 ≤ d.length by omega)
    obtain ⟨d6, d, rfl, hle⟩ := cons_of_lt_length (show 6 + 1 ≤ d.length by omega)
    obtain ⟨d7, d, rfl, hle⟩ := cons_of_lt_length (show 5 + 1 ≤ d.length by omega)
    obtain ⟨d8, d, rfl, hle⟩ := cons_of_lt_length (show 4 + 1 ≤ d.length by omega)
    obtain ⟨d9, d, rfl, hle⟩ := cons_of_lt_length (show 3 + 1 ≤ d.length by omega)
    obtain ⟨d10, d, rfl, hle⟩ := cons_of_lt_length (show 2 + 1 ≤ d.length by omega)
    obtain ⟨d11, d, rfl, hle⟩ := cons_of_lt_length (show 1 + 1 ≤ d.length by omega)
    obtain ⟨d12, t, rfl, -⟩ := cons_of_lt_length (show 0 + 1 ≤ d.length by omega)
    simp only [List.mem_cons, forall_eq_or_imp] at hall
    obtain ⟨h1, h2, h3, h4, h5, h6, h7, h8, h9, h10, h11, h12, ht⟩ := hall
    have hr := cpfRender11 d1 d2 d3 d4 d5 d6 d7 d8 d9 d10 d11 (d12 :: t)
      h1 h2 h3 h4 h5 h6 h7 h8 h9 h10 h11
    have htake :
        (([d1,d2,d3,'.',d4,d5,d6,'.',d7,d8,d9,'-',d10,d11] : Str) ++
          d12 :: t).take 14 =
        [d1,d2,d3,'.',d4,d5,d6,'.',d7,d8,d9,'-',d10,d11] := by
      have h : ([d1,d2,d3,'.',d4,d5,d6,'.',d7,d8,d9,'-',d10,d11] :
          Str).length = 14 := rfl
      rw [← h, List.take_left]
    have hstrip := stripP14cpf d1 d2 d3 d4 d5 d6 d7 d8 d9 d10 d11
      h1 h2 h3 h4 h5 h6 h7 h8 h9 h10 h11
    have hr2 := cpfRender11 d1 d2 d3 d4 d5 d6 d7 d8 d9 d10 d11 []
      h1 h2 h3 h4 h5 h6 h7 h8 h9 h10 h11
    rw [List.append_nil] at hr2
    have htake2 :
        (([d1,d2,d3,'.',d4,d5,d6,'.',d7,d8,d9,'-',d10,d11] : Str)).take 14 =
        [d1,d2,d3,'.',d4,d5,d6,'.',d7,d8,d9,'-',d10,d11] :=
      List.take_of_length_le (by simp)
    rw [hr, htake, hstrip, hr2, htake2]

theorem telRender10 (d1 d2 d3 d4 d5 d6 d7 d8 d9 d10 : Char) (t : Str)
    (h1 : d1.isDigit = true) (h2 : d2.isDigit = true)
    (h3 : d3.isDigit = true) (h4 : d4.isDigit = true)
    (h5 : d5.isDigit = true) (h6 : d6.isDigit = true)
    (h7 : d7.isDigit = true) (h8 : d8.isDigit = true)
    (h9 : d9.isDigit = true) (h10 : d10.isDigit = true) :
    insDash4 (telR1 (d1::d2::d3::d4::d5::d6::d7::d8::d9::d10::t)) =
      ['(',d1,d2,')',' ',d3,d4,d5,d6,'-',d7,d8,d9,d10] ++ t := by
  simp [telR1, insDash4, h1, h2, h3, h4, h5, h6, h7, h8, h9, h10,
    lparen_not_digit, rparen_not_digit, space_not_digit]

theorem stripP14tel (d1 d2 d3 d4 d5 d6 d7 d8 d9 d10 : Char)
    (h1 : d1.isDigit = true) (h2 : d2.isDigit = true)
    (h3 : d3.isDigit = true) (h4 : d4.isDigit = true)
    (h5 : d5.isDigit = true) (h6 : d6.isDigit = true)
    (h7 : d7.isDigit = true) (h8 : d8.isDigit = true)
    (h9 : d9.isDigit = true) (h10 : d10.isDigit = true) :
    stripNonDigits ['(',d1,d2,')',' ',d3,d4,d5,d6,'-',d7,d8,d9,d10] =
      [d1,d2,d3,d4,d5,d6,d7,d8,d9,d10] := by
  simp [stripNonDigits, List.filter_cons, h1, h2, h3, h4, h5, h6, h7, h8, h9,
    h10, lparen_not_digit, rparen_not_digit, space_not_digit, dash_not_digit]

theorem formatTelefone_idem (v : Str) :
    formatTelefone (formatTelefone v) = formatTelefone v := by
  have hall := all_digits_strip v
  unfold formatTelefone
  generalize hg : stripNonDigits v = d
  rw [hg] at hall
  by_cases hle : d.length ≤ 10
  · have h14 : (insDash4 (telR1 d)).length ≤ 14 := by
      have b1 := len_telR1 d
      have b2 := len_insDash4 (telR1 d)
      omega
    rw [List.take_of_length_le h14, strip_insDash4, strip_telR1,
      strip_all_digits hall, List.take_of_length_le h14]
  · push_neg at hle
    obtain ⟨d1, d, rfl, hle⟩ := cons_of_lt_length (show 10 + 1 ≤ d.length by omega)
    obtain ⟨d2, d, rfl, hle⟩ := cons_of_lt_length (show 9 + 1 ≤ d.length by omega)
    obtain ⟨d3, d, rfl, hle⟩ := cons_of_lt_length (show 8 + 1 ≤ d.length by omega)
    obtain ⟨d4, d, rfl, hle⟩ := cons_of_lt_length (show 7 + 1 ≤ d.length by omega)
    obtain ⟨d5, d, rfl, hle⟩ := cons_of_lt_length (show 6 + 1 ≤ d.length by omega)
    obtain ⟨d6, d, rfl, hle⟩ := cons_of_lt_length (show 5 + 1 ≤ d.length by omega)
    obtain ⟨d7, d, rfl, hle⟩ := cons_of_lt_length (show 4 + 1 ≤ d.length by omega)
    obtain ⟨d8, d, rfl, hle⟩ := cons_of_lt_length (show 3 + 1 ≤ d.length by omega)
    obtain ⟨d9, d, rfl, hle⟩ := cons_of_lt_length (show 2 + 1 ≤ d.length by omega)
    obtain ⟨d10, d, rfl, hle⟩ := cons_of_lt_length (show 1 + 1 ≤ d.length by omega)
    obtain ⟨d11, t, rfl, -⟩ := cons_of_lt_length (show 0 + 1 ≤ d.length by omega)
    simp only [List.mem_cons, forall_eq_or_imp] at hall
    obtain ⟨h1, h2, h3, h4, h5, h6, h7, h8, h9, h10, h11, ht⟩ := hall
    have hr := telRender10 d1 d2 d3 d4 d5 d6 d7 d8 d9 d10 (d11 :: t)
      h1 h2 h3 h4 h5 h6 h7 h8 h9 h10
    have htake :
        ((['(',d1,d2,')',' ',d3,d4,d5,d6,'-',d7,d8,d9,d10] : Str) ++
          d11 :: t).take 14 =
        ['(',d1,d2,')',' ',d3,d4,d5,d6,'-',d7,d8,d9,d10] := by
      have h : (['(',d1,d2,')',' ',d3,d4,d5,d6,'-',d7,d8,d9,d10] :
          Str).length = 14 := rfl
      rw [← h, List.take_left]
    have hstrip := stripP14tel d1 d2 d3 d4 d5 d6 d7 d8 d9 d10
      h1 h2 h3 h4 h5 h6 h7 h8 h9 h10
    have hr2 := telRender10 d1 d2 d3 d4 d5 d6 d7 d8 d9 d10 []
      h1 h2 h3 h4 h5 h6 h7 h8 h9 h10
    rw [List.append_nil] at hr2
    have htake2 :
        ((['(',d1,d2,')',' ',d3,d4,d5,d6,'-',d7,d8,d9,d10] : Str)).take 14 =
        ['(',d1,d2,')',' ',d3,d4,d5,d6,'-',d7,d8,d9,d10] :=
      List.take_of_length_le (by simp)
    rw [hr, htake, hstrip, hr2, htake2]

/-- Claim C1 fails as stated: in a successful postal-lookup merge, an
address field that the response does not return is not left unchanged — at
this concrete input the response has no `logradouro`, yet the draft's
previously typed `logradouro` is overwritten with the empty string. -/
theorem c1_counterexample :
    (let s : FormState :=
      { initialState with
        formData := { initialFormData with logradouro := ['R'] } }
     let data : CepResponse := { erro := false }
     data.erro = false ∧ data.logradouro = none ∧
     (consultarCEP "12345678".toList s data).1.formData.logradouro ≠
       s.formData.logradouro) := by decide

/-- Claim C1 (amended): on a successful postal-lookup response the merge
overwrites all four of street, neighborhood, city and state — each is set
to the response's value when present and to the empty string when absent —
while every other draft field is left unchanged, and the success toast is
fired. -/
theorem c1_cep_success_overwrites_all_four (cep : Str) (s : FormState)
    (data : CepResponse) (hv : validateCEP cep = true)
    (he : data.erro = false) :
    ((consultarCEP cep s data).1.formData.logradouro =
        data.logradouro.getD [] ∧
     (consultarCEP cep s data).1.formData.bairro = data.bairro.getD [] ∧
     (consultarCEP cep s data).1.formData.municipio =
        data.localidade.getD [] ∧
     (consultarCEP cep s data).1.formData.uf = data.uf.getD []) ∧
    ((consultarCEP cep s data).1.formData.personalidade =
        s.formData.personalidade ∧
     (consultarCEP cep s data).1.formData.razaoSocial =
        s.formData.razaoSocial ∧
     (consultarCEP cep s data).1.formData.documento = s.formData.documento ∧
     (consultarCEP cep s data).1.formData.cep = s.formData.cep ∧
     (consultarCEP cep s data).1.formData.numero = s.formData.numero ∧
     (consultarCEP cep s data).1.formData.email = s.formData.email ∧
     (consultarCEP cep s data).1.formData.telefone = s.formData.telefone ∧
     (consultarCEP cep s data).1.formData.complemento =
        s.formData.complemento ∧
     (consultarCEP cep s data).1.formData.observacao =
        s.formData.observacao) ∧
    (consultarCEP cep s data).2 = some cepSuccessToast := by
  simp [consultarCEP, hv, he]

/-- Claim C1 witness: the amended merge behaviour at a concrete valid
postal code, a state with user-typed address fields, and a response
returning only street and city. -/
theorem c1_cep_success_overwrites_all_four_witness :
    (validateCEP "12345678".toList = true ∧
      sampleCepResponse.erro = false) ∧
    (((consultarCEP "12345678".toList sampleFilledState
          sampleCepResponse).1.formData.logradouro =
        sampleCepResponse.logradouro.getD [] ∧
      (consultarCEP "12345678".toList sampleFilledState
          sampleCepResponse).1.formData.bairro =
        sampleCepResponse.bairro.getD [] ∧
      (consultarCEP "12345678".toList sampleFilledState
          sampleCepResponse).1.formData.municipio =
        sampleCepResponse.localidade.getD [] ∧
      (consultarCEP "12345678".toList sampleFilledState
          sampleCepResponse).1.formData.uf =
        sampleCepResponse.uf.getD []) ∧
     ((consultarCEP "12345678".toList sampleFilledState
          sampleCepResponse).1.formData.personalidade =
        sampleFilledState.formData.personalidade ∧
      (consultarCEP "12345678".toList sampleFilledState
          sampleCepResponse).1.formData.razaoSocial =
        sampleFilledState.formData.razaoSocial ∧
      (consultarCEP "12345678".toList sampleFilledState
          sampleCepResponse).1.formData.documento =
        sampleFilledState.formData.documento ∧
      (consultarCEP "12345678".toList sampleFilledState
          sampleCepResponse).1.formData.cep =
        sampleFilledState.formData.cep ∧
      (consultarCEP "12345678".toList sampleFilledState
          sampleCepResponse).1.formData.numero =
        sampleFilledState.formData.numero ∧
      (consultarCEP "12345678".toList sampleFilledState
          sampleCepResponse).1.formData.email =
        sampleFilledState.formData.email ∧
      (consultarCEP "12345678".toList sampleFilledState
          sampleCepResponse).1.formData.telefone =
        sampleFilledState.formData.telefone ∧
      (consultarCEP "12345678".toList sampleFilledState
          sampleCepResponse).1.formData.complemento =
        sampleFilledState.formData.complemento ∧
      (consultarCEP "12345678".toList sampleFilledState
          sampleCepResponse).1.formData.observacao =
        sampleFilledState.formData.observacao) ∧
     (consultarCEP "12345678".toList sampleFilledState
        sampleCepResponse).2 = some cepSuccessToast) :=
  ⟨⟨by decide, rfl⟩,
   c1_cep_success_overwrites_all_four "12345678".toList sampleFilledState
     sampleCepResponse (by decide) rfl⟩

/-- Claim C2 fails as stated: full-form validation does not check the
phone's digit count — this concrete draft, valid in every other respect but
whose phone holds a single digit, is accepted with no phone-field error. -/
theorem c2_counterexample :
    (let fd : PartnerFormData :=
      { personalidade := .juridica, razaoSocial := ['A'],
        documento := "12345678901234".toList, cep := "12345678".toList,
        uf := "SP".toList, municipio := ['C'], logradouro := ['R'],
        numero := ['1'], bairro := ['B'], email := "a@b.c".toList,
        telefone := ['5'], complemento := [], observacao := [] }
     (stripNonDigits fd.telefone).length = 1 ∧
     (validateForm fd).2 = true ∧
     getErr .telefone (validateForm fd).1 = none) := by decide

/-- Claim C2 (amended): full-form validation accepts the phone field
whenever its trimmed value is non-blank; no digit-count constraint (10–11
or otherwise) is enforced on the phone, and the error map's phone entry is
the required-field message exactly when the trimmed phone is empty. -/
theorem c2_phone_validation_only_requires_nonblank (fd : PartnerFormData) :
    getErr .telefone (validateForm fd).1 =
      (if (trim fd.telefone).isEmpty then some "Telefone é obrigatório"
       else none) := by
  simp only [validateForm, getErr]
  simp [apply_ite FormErrors.telefone]

/-- Claim C3 fails as stated: after a state-changing operation the
CompletedFields set need not equal the set of required fields with
non-blank trimmed values — after this successful postal-lookup merge the
street field is non-blank (so it lies in the spec's set) yet it is absent
from the maintained set, because the lookup merge never updates
`completedFields`. -/
theorem c3_counterexample :
    (let s1 := (consultarCEP "12345678".toList initialState
        { erro := false, logradouro := some "Rua A".toList }).1
     FieldKey.logradouro ∈ specRequiredCompleted s1.formData ∧
     FieldKey.logradouro ∉ s1.completed) := by decide

/-- Claim C3 (amended): the CompletedFields set is maintained only by field
edits — after `handleInputChange` on a field, that field belongs to the set
exactly when its stored (formatted) value has a non-blank trim, and every
other field's membership is unchanged; postal-lookup merges and personality
switches leave the set untouched (so it can diverge from the set of
non-blank required fields), and a successful submit empties it. -/
theorem c3_completed_set_maintenance :
    (∀ f v s,
      ((f ∈ (handleInputChange f v s).completed ↔
        (trim (getField f (handleInputChange f v s).formData)).isEmpty =
          false)) ∧
      (∀ g, g ≠ f →
        (g ∈ (handleInputChange f v s).completed ↔ g ∈ s.completed))) ∧
    (∀ cep s data, ((consultarCEP cep s data).1).completed = s.completed) ∧
    (∀ v s, (onPersonalidadeChange v s).completed = s.completed) ∧
    (∀ s, (validateForm s.formData).2 = true →
      ((handleSubmit s).1).completed = ∅) := by
  refine ⟨?_, ?_, ?_, ?_⟩
  · intro f v s
    constructor
    · rw [handleInputChange_completed]
      split
      · next h => simp [h, Finset.not_mem_erase]
      · next h => simp at h; simp [h, Finset.mem_insert]
    · intro g hg
      rw [handleInputChange_completed]
      split
      · simp [Finset.mem_erase, hg]
      · simp [Finset.mem_insert, hg]
  · intro cep s data
    simp only [consultarCEP]
    split
    · rfl
    · split <;> rfl
  · intro v s; rfl
  · intro s hv
    simp [handleSubmit, hv]

/-- Claim C3 witness: the amended maintenance discipline at concrete
inputs — an edit of the state-code field, a not-found lookup, a
personality switch, and a successful submit of a valid draft. -/
theorem c3_completed_set_maintenance_witness :
    (FieldKey.uf ∈ (handleInputChange .uf ['S'] initialState).completed ↔
      (trim (getField .uf
        (handleInputChange .uf ['S'] initialState).formData)).isEmpty =
          false) ∧
    (FieldKey.cep ∈ (handleInputChange .uf ['S'] initialState).completed ↔
      FieldKey.cep ∈ initialState.completed) ∧
    (consultarCEP "12345678".toList initialState
      { erro := true }).1.completed = initialState.completed ∧
    (onPersonalidadeChange .fisica initialState).completed =
      initialState.completed ∧
    (handleSubmit sampleValidState).1.completed = ∅ :=
  ⟨(c3_completed_set_maintenance.1 .uf ['S'] initialState).1,
   (c3_completed_set_maintenance.1 .uf ['S'] initialState).2 .cep (by decide),
   c3_completed_set_maintenance.2.1 "12345678".toList initialState
     { erro := true },
   c3_completed_set_maintenance.2.2.1 .fisica initialState,
   c3_completed_set_maintenance.2.2.2 sampleValidState (by decide)⟩

/-- Claim C4: for every string of exactly 14 digits, applying the company
tax-id formatter and then stripping all non-digit characters yields the
original string back. -/
theorem c4_cnpj_format_roundtrip (l : Str) (hlen : l.length = 14)
    (hdig : ∀ c ∈ l, c.isDigit = true) :
    stripNonDigits (formatCNPJ l) = l := by
  unfold formatCNPJ
  rw [strip_all_digits hdig]
  obtain ⟨d1, l, rfl, hge⟩ := cons_of_lt_length (show 13 + 1 ≤ l.length by omega)
  obtain ⟨d2, l, rfl, hge⟩ := cons_of_lt_length (show 12 + 1 ≤ l.length by omega)
  obtain ⟨d3, l, rfl, hge⟩ := cons_of_lt_length (show 11 + 1 ≤ l.length by omega)
  obtain ⟨d4, l, rfl, hge⟩ := cons_of_lt_length (show 10 + 1 ≤ l.length by omega)
  obtain ⟨d5, l, rfl, hge⟩ := cons_of_lt_length (show 9 + 1 ≤ l.length by omega)
  obtain ⟨d6, l, rfl, hge⟩ := cons_of_lt_length (show 8 + 1 ≤ l.length by omega)
  obtain ⟨d7, l, rfl, hge⟩ := cons_of_lt_length (show 7 + 1 ≤ l.length by omega)
  obtain ⟨d8, l, rfl, hge⟩ := cons_of_lt_length (show 6 + 1 ≤ l.length by omega)
  obtain ⟨d9, l, rfl, hge⟩ := cons_of_lt_length (show 5 + 1 ≤ l.length by omega)
  obtain ⟨d10, l, rfl, hge⟩ := cons_of_lt_length (show 4 + 1 ≤ l.length by omega)
  obtain ⟨d11, l, rfl, hge⟩ := cons_of_lt_length (show 3 + 1 ≤ l.length by omega)
  obtain ⟨d12, l, rfl, hge⟩ := cons_of_lt_length (show 2 + 1 ≤ l.length by omega)
  obtain ⟨d13, l, rfl, hge⟩ := cons_of_lt_length (show 1 + 1 ≤ l.length by omega)
  obtain ⟨d14, t, rfl, -⟩ := cons_of_lt_length (show 0 + 1 ≤ l.length by omega)
  simp only [List.length_cons] at hlen
  have ht : t = [] := List.eq_nil_of_length_eq_zero (by omega)
  subst ht
  simp only [List.mem_cons, forall_eq_or_imp] at hdig
  obtain ⟨h1, h2, h3, h4, h5, h6, h7, h8, h9, h10, h11, h12, h13, h14, -⟩ :=
    hdig
  have hr := cnpjRender14 d1 d2 d3 d4 d5 d6 d7 d8 d9 d10 d11 d12 d13 d14 []
    h1 h2 h3 h4 h5 h6 h7 h8 h9 h10 h11 h12 h13 h14
  rw [List.append_nil] at hr
  rw [hr, List.take_of_length_le (by simp)]
  exact stripP18 d1 d2 d3 d4 d5 d6 d7 d8 d9 d10 d11 d12 d13 d14
    h1 h2 h3 h4 h5 h6 h7 h8 h9 h10 h11 h12 h13 h14

/-- Claim C4 witness: the round trip at a concrete 14-digit string. -/
theorem c4_cnpj_format_roundtrip_witness :
    ("12345678901234".toList.length = 14 ∧
      (∀ c ∈ "12345678901234".toList, c.isDigit = true)) ∧
    stripNonDigits (formatCNPJ "12345678901234".toList) =
      "12345678901234".toList :=
  ⟨⟨by decide, by decide⟩,
   c4_cnpj_format_roundtrip "12345678901234".toList (by decide) (by decide)⟩

/-- Claim C5: every formatter (company tax-id, individual tax-id, postal
code, phone) is idempotent — applying it to its own output returns that
output unchanged, for every input string. -/
theorem c5_formatters_idempotent :
    (∀ v : Str, formatCNPJ (formatCNPJ v) = formatCNPJ v) ∧
    (∀ v : Str, formatCPF (formatCPF v) = formatCPF v) ∧
    (∀ v : Str, formatCEP (formatCEP v) = formatCEP v) ∧
    (∀ v : Str, formatTelefone (formatTelefone v) = formatTelefone v) :=
  ⟨formatCNPJ_idem, formatCPF_idem, formatCEP_idem, formatTelefone_idem⟩

/-- Claim C6: submitting a draft whose required fields are all non-blank,
whose email matches the email pattern, whose tax id has the digit count
demanded by the current personality, and whose postal code has 8 digits,
passes validation, runs the (always succeeding) simulated persistence
step, resets the draft to its defaults, empties CompletedFields, and ends
with the submit flag back at idle. -/
theorem c6_valid_submit_resets (s : FormState)
    (hreq : ∀ f ∈ requiredFields,
      (trim (getField f s.formData)).isEmpty = false)
    (hem : validateEmail s.formData.email = true)
    (hdoc : (if s.formData.personalidade = .juridica then
        validateCNPJ s.formData.documento
      else validateCPF s.formData.documento) = true)
    (hcep : validateCEP s.formData.cep = true) :
    handleSubmit s = ({ s with
      formData := initialFormData, errors := {}, completed := ∅,
      isLoading := false }, true) := by
  have h1 : (trim s.formData.razaoSocial).isEmpty = false :=
    hreq .razaoSocial (by simp [requiredFields])
  have h2 : (trim s.formData.documento).isEmpty = false :=
    hreq .documento (by simp [requiredFields])
  have h3 : (trim s.formData.cep).isEmpty = false :=
    hreq .cep (by simp [requiredFields])
  have h4 : (trim s.formData.uf).isEmpty = false :=
    hreq .uf (by simp [requiredFields])
  have h5 : (trim s.formData.municipio).isEmpty = false :=
    hreq .municipio (by simp [requiredFields])
  have h6 : (trim s.formData.logradouro).isEmpty = false :=
    hreq .logradouro (by simp [requiredFields])
  have h7 : (trim s.formData.numero).isEmpty = false :=
    hreq .numero (by simp [requiredFields])
  have h8 : (trim s.formData.bairro).isEmpty = false :=
    hreq .bairro (by simp [requiredFields])
  have h9 : (trim s.formData.email).isEmpty = false :=
    hreq .email (by simp [requiredFields])
  have h10 : (trim s.formData.telefone).isEmpty = false :=
    hreq .telefone (by simp [requiredFields])
  have hv : validateForm s.formData = ({}, true) := by
    rcases hpers : s.formData.personalidade with _ | _
    · have hd : validateCPF s.formData.documento = true := by
        simpa [hpers] using hdoc
      simp [validateForm, h1, h2, h3, h4, h5, h6, h7, h8, h9, h10, hem, hd,
        hcep, hpers, countErrors]
    · have hd : validateCNPJ s.formData.documento = true := by
        simpa [hpers] using hdoc
      simp [validateForm, h1, h2, h3, h4, h5, h6, h7, h8, h9, h10, hem, hd,
        hcep, hpers, countErrors]
  simp [handleSubmit, hv]

/-- Claim C6 witness: the reset at a concrete fully-valid state. -/
theorem c6_valid_submit_resets_witness :
    ((∀ f ∈ requiredFields,
        (trim (getField f sampleValidState.formData)).isEmpty = false) ∧
     validateEmail sampleValidState.formData.email = true ∧
     (if sampleValidState.formData.personalidade = .juridica then
        validateCNPJ sampleValidState.formData.documento
      else validateCPF sampleValidState.formData.documento) = true ∧
     validateCEP sampleValidState.formData.cep = true) ∧
    handleSubmit sampleValidState = ({ sampleValidState with
      formData := initialFormData, errors := {}, completed := ∅,
      isLoading := false }, true) :=
  ⟨⟨by decide, by decide, by decide, by decide⟩,
   c6_valid_submit_resets sampleValidState (by decide) (by decide)
     (by decide) (by decide)⟩

/-- Claim C7: full-form validation of a draft whose twelve text fields are
all blank returns false and produces exactly ten error entries — one for
each of the ten required fields, none for complement or note. -/
theorem c7_all_blank_validation_ten_errors (fd : PartnerFormData)
    (hb : ∀ f, (trim (getField f fd)).isEmpty = true) :
    (validateForm fd).2 = false ∧
    countErrors (validateForm fd).1 = 10 ∧
    ((getErr .razaoSocial (validateForm fd).1).isSome = true ∧
     (getErr .documento (validateForm fd).1).isSome = true ∧
     (getErr .cep (validateForm fd).1).isSome = true ∧
     (getErr .uf (validateForm fd).1).isSome = true ∧
     (getErr .municipio (validateForm fd).1).isSome = true ∧
     (getErr .logradouro (validateForm fd).1).isSome = true ∧
     (getErr .numero (validateForm fd).1).isSome = true ∧
     (getErr .bairro (validateForm fd).1).isSome = true ∧
     (getErr .email (validateForm fd).1).isSome = true ∧
     (getErr .telefone (validateForm fd).1).isSome = true) ∧
    getErr .complemento (validateForm fd).1 = none ∧
    getErr .observacao (validateForm fd).1 = none := by
  have h1 : (trim fd.razaoSocial).isEmpty = true := hb .razaoSocial
  have h2 : (trim fd.documento).isEmpty = true := hb .documento
  have h3 : (trim fd.cep).isEmpty = true := hb .cep
  have h4 : (trim fd.uf).isEmpty = true := hb .uf
  have h5 : (trim fd.municipio).isEmpty = true := hb .municipio
  have h6 : (trim fd.logradouro).isEmpty = true := hb .logradouro
  have h7 : (trim fd.numero).isEmpty = true := hb .numero
  have h8 : (trim fd.bairro).isEmpty = true := hb .bairro
  have h9 : (trim fd.email).isEmpty = true := hb .email
  have h10 : (trim fd.telefone).isEmpty = true := hb .telefone
  simp only [validateForm, h1, h2, h3, h4, h5, h6, h7, h8, h9, h10, if_true]
  split <;> split <;> split <;> split <;>
    simp [countErrors, getErr]

/-- Claim C7 witness: the ten-error outcome at the initial (all-empty)
draft. -/
theorem c7_all_blank_validation_ten_errors_witness :
    (∀ f, (trim (getField f initialFormData)).isEmpty = true) ∧
    ((validateForm initialFormData).2 = false ∧
     countErrors (validateForm initialFormData).1 = 10 ∧
     ((getErr .razaoSocial (validateForm initialFormData).1).isSome = true ∧
      (getErr .documento (validateForm initialFormData).1).isSome = true ∧
      (getErr .cep (validateForm initialFormData).1).isSome = true ∧
      (getErr .uf (validateForm initialFormData).1).isSome = true ∧
      (getErr .municipio (validateForm initialFormData).1).isSome = true ∧
      (getErr .logradouro (validateForm initialFormData).1).isSome = true ∧
      (getErr .numero (validateForm initialFormData).1).isSome = true ∧
      (getErr .bairro (validateForm initialFormData).1).isSome = true ∧
      (getErr .email (validateForm initialFormData).1).isSome = true ∧
      (getErr .telefone (validateForm initialFormData).1).isSome = true) ∧
     getErr .complemento (validateForm initialFormData).1 = none ∧
     getErr .observacao (validateForm initialFormData).1 = none) :=
  ⟨by decide, c7_all_blank_validation_ten_errors initialFormData (by decide)⟩

/-- Claim C8: switching the personality value (in either direction, for any
draft) produces a draft whose tax id and legal name are empty strings, with
the new personality stored and every other draft field unchanged. -/
theorem c8_personality_switch_clears_draft_fields (v : Personalidade)
    (s : FormState) :
    (onPersonalidadeChange v s).formData.documento = [] ∧
    (onPersonalidadeChange v s).formData.razaoSocial = [] ∧
    (onPersonalidadeChange v s).formData.personalidade = v ∧
    (onPersonalidadeChange v s).formData.cep = s.formData.cep ∧
    (onPersonalidadeChange v s).formData.uf = s.formData.uf ∧
    (onPersonalidadeChange v s).formData.municipio = s.formData.municipio ∧
    (onPersonalidadeChange v s).formData.logradouro = s.formData.logradouro ∧
    (onPersonalidadeChange v s).formData.numero = s.formData.numero ∧
    (onPersonalidadeChange v s).formData.bairro = s.formData.bairro ∧
    (onPersonalidadeChange v s).formData.email = s.formData.email ∧
    (onPersonalidadeChange v s).formData.telefone = s.formData.telefone ∧
    (onPersonalidadeChange v s).formData.complemento =
      s.formData.complemento ∧
    (onPersonalidadeChange v s).formData.observacao = s.formData.observacao :=
  ⟨rfl, rfl, rfl, rfl, rfl, rfl, rfl, rfl, rfl, rfl, rfl, rfl, rfl⟩

/-- Claim C9: when the postal lookup receives a response whose `erro` field
is truthy, the whole state (draft included) is returned unchanged and the
not-found toast — whose severity is destructive — is fired. -/
theorem c9_cep_not_found_leaves_state (cep : Str) (s : FormState)
    (data : CepResponse) (hv : validateCEP cep = true)
    (he : data.erro = true) :
    consultarCEP cep s data = (s, some cepNotFoundToast) ∧
    cepNotFoundToast.variant = .destructive := by
  refine ⟨?_, rfl⟩
  simp [consultarCEP, hv, he]

/-- Claim C9 witness: the unchanged state and destructive toast at a
concrete valid postal code and an `erro` response. -/
theorem c9_cep_not_found_leaves_state_witness :
    validateCEP "12345678".toList = true ∧
    consultarCEP "12345678".toList initialState { erro := true } =
      (initialState, some cepNotFoundToast) ∧
    cepNotFoundToast.variant = .destructive :=
  ⟨by decide,
   (c9_cep_not_found_leaves_state "12345678".toList initialState
     { erro := true } (by decide) rfl).1,
   (c9_cep_not_found_leaves_state "12345678".toList initialState
     { erro := true } (by decide) rfl).2⟩

/-- Claim C10: when the tax-id lookup receives a status-OK response whose
`nome` field is absent (or the empty string), the draft's legal name is set
to the empty string — for every prior state, including one where the user
had already typed a legal name — rather than being left unchanged. -/
theorem c10_cnpj_ok_missing_nome_clears_legal_name (cnpj : Str)
    (s : FormState) (data : CnpjResponse) (hv : validateCNPJ cnpj = true)
    (hs : data.status = "OK") (hn : data.nome = none ∨ data.nome = some []) :
    (consultarCNPJ cnpj s data).1.formData.razaoSocial = [] := by
  rcases hn with hn | hn <;> simp [consultarCNPJ, hv, hs, hn]

/-- Claim C10 witness: erasure of an already-typed legal name at a concrete
valid tax id and a status-OK response with no `nome`. -/
theorem c10_cnpj_ok_missing_nome_clears_legal_name_witness :
    (consultarCNPJ "12345678901234".toList
      { initialState with
        formData := { initialFormData with razaoSocial := ['A'] } }
      { status := "OK", nome := none }).1.formData.razaoSocial = [] ∧
    ({ initialFormData with razaoSocial := ['A'] } :
      PartnerFormData).razaoSocial ≠ [] :=
  ⟨c10_cnpj_ok_missing_nome_clears_legal_name "12345678901234".toList
    { initialState with
      formData := { initialFormData with razaoSocial := ['A'] } }
    { status := "OK", nome := none } (by decide) rfl (Or.inl rfl),
   by decide⟩
